import Mathlib

/-!
Verification development for a fixed-step hydraulic simulator (a pump
filling a cylindrical tank through a pipe).  The C source computes with
IEEE-754 doubles; here every double is idealized as an exact rational
number, so all arithmetic is over ℚ.  The constant M_PI from math.h is
embedded as the exact rational value of its double representation.
-/

namespace Asim

/-- Pump record: flow rate Q (m³/s), head H (m), power P (W). -/
structure Pump where
  flow_rate : ℚ
  head : ℚ
  power : ℚ
deriving DecidableEq

/-- Pipe record: length L (m), diameter D (m), roughness (dimensionless),
velocity v (m/s), density ρ (kg/m³). -/
structure Pipe where
  length : ℚ
  diameter : ℚ
  roughness : ℚ
  velocity : ℚ
  density : ℚ
deriving DecidableEq

/-- Tank record: height H_t (m), radius r (m), water level h (m). -/
structure Tank where
  height : ℚ
  radius : ℚ
  water_level : ℚ
deriving DecidableEq

/-- The GRAVITY constant of the source, 9.81 m/s². -/
def GRAVITY : ℚ := 981 / 100

/-- The exact rational value of the IEEE-754 double constant M_PI
(884279719003555 / 2^48 ≈ 3.141592653589793). -/
def M_PI : ℚ := 884279719003555 / 281474976710656

/-- Darcy friction factor: laminar 64/Re below Re = 2000, else the fixed
turbulent approximation 0.02. -/
def calculate_friction_factor (reynolds_number : ℚ) : ℚ :=
  if reynolds_number < 2000 then
    64 / reynolds_number
  else
    2 / 100

/-- Head loss in the pipe (Darcy–Weisbach), returning the updated pipe
(the source writes the computed velocity into pipe->velocity) together
with the head loss in meters.  The Reynolds number uses the fixed dynamic
viscosity 0.001 Pa·s. -/
def calculate_head_loss (pipe : Pipe) (flow_rate : ℚ) : Pipe × ℚ :=
  let area := M_PI * ((pipe.diameter / 2) * (pipe.diameter / 2))
  let velocity := flow_rate / area
  let pipe' := { pipe with velocity := velocity }
  let reynolds_number := (pipe'.density * pipe'.velocity * pipe'.diameter) / (1 / 1000)
  let f := calculate_friction_factor reynolds_number
  (pipe', f * (pipe'.length / pipe'.diameter) * (pipe'.velocity * pipe'.velocity) / (2 * GRAVITY))

/-- Pump power ρ·g·Q·H in watts.  Reads its arguments and mutates nothing. -/
def calculate_pump_power (pump : Pump) (pipe : Pipe) : ℚ :=
  pipe.density * GRAVITY * pump.flow_rate * pump.head

/-- The two notices the integrator can print. -/
inductive Notice where
  | noFlow
  | overflow
deriving DecidableEq

/-- Result of one call to update_tank: the three (possibly) mutated
records plus the notices printed during the call, in order. -/
structure StepResult where
  tank : Tank
  pump : Pump
  pipe : Pipe
  notices : List Notice
deriving DecidableEq

/-- One integration step (update_tank in the source): compute head loss
(which updates pipe.velocity); if the pump head is below the head loss,
print the no-flow notice and return; otherwise raise the water level by
(Q / (π·r²))·Δt, clamp at the tank height (printing the overflow notice),
and recompute the pump power. -/
def update_tank (tank : Tank) (pump : Pump) (pipe : Pipe) (time_step : ℚ) : StepResult :=
  let r := calculate_head_loss pipe pump.flow_rate
  let pipe' := r.1
  let head_loss := r.2
  if pump.head < head_loss then
    ⟨tank, pump, pipe', [Notice.noFlow]⟩
  else
    let effective_flow_rate := pump.flow_rate
    let tank_area := M_PI * (tank.radius * tank.radius)
    let water_level' := tank.water_level + (effective_flow_rate / tank_area) * time_step
    let pump' := { pump with power := calculate_pump_power pump pipe' }
    if water_level' > tank.height then
      ⟨{ tank with water_level := tank.height }, pump', pipe', [Notice.overflow]⟩
    else
      ⟨{ tank with water_level := water_level' }, pump', pipe', []⟩

/-- One line of the output stream: the two header lines, a notice line,
or a per-tick observation line carrying (time, water level, flow rate,
power) — the four values printf formats on each iteration. -/
inductive Line where
  | header : Line
  | separator : Line
  | notice : Notice → Line
  | observation : ℚ → ℚ → ℚ → ℚ → Line
deriving DecidableEq

/-- Result of the simulation loop: final records, final sleeper state,
and the emitted lines in order. -/
structure LoopResult (σ : Type) where
  pump : Pump
  pipe : Pipe
  tank : Tank
  sleepState : σ
  lines : List Line

/-- The while loop of simulate_system.  Each iteration runs update_tank,
emits the notices followed by one observation line, advances simulated
time by the time step, and invokes the sleeper (threaded as a state
transformer, since the source's usleep returns nothing the loop reads).
The loop guard is the source's current_time < simulation_duration; the
conjunct 0 < time_step makes the recursion well founded (the C loop does
not terminate for a non-positive time step). -/
def simulate_loop {σ : Type} (sleeper : ℚ → σ → σ) (pump : Pump) (pipe : Pipe) (tank : Tank)
    (simulation_duration time_step current_time : ℚ) (s : σ) : LoopResult σ :=
  if hloop : current_time < simulation_duration ∧ 0 < time_step then
    let r := update_tank tank pump pipe time_step
    let obs : Line := Line.observation current_time r.tank.water_level r.pump.flow_rate r.pump.power
    let s' := sleeper time_step s
    let rest := simulate_loop sleeper r.pump r.pipe r.tank simulation_duration time_step
      (current_time + time_step) s'
    { rest with lines := (r.notices.map Line.notice) ++ obs :: rest.lines }
  else
    ⟨pump, pipe, tank, s, []⟩
termination_by (Int.ceil ((simulation_duration - current_time) / time_step)).toNat
decreasing_by
  obtain ⟨h1, h2⟩ := hloop
  have hne : time_step ≠ 0 := ne_of_gt h2
  have e : (simulation_duration - (current_time + time_step)) / time_step
      = (simulation_duration - current_time) / time_step - 1 := by
    field_simp
    ring
  have hp : 0 < Int.ceil ((simulation_duration - current_time) / time_step) := by
    rw [Int.ceil_pos]
    exact div_pos (sub_pos.mpr h1) h2
  rw [e]
  have hc : Int.ceil ((simulation_duration - current_time) / time_step - 1)
      = Int.ceil ((simulation_duration - current_time) / time_step) - 1 := by
    have h3 := Int.ceil_sub_int ((simulation_duration - current_time) / time_step) 1
    simp only [Int.cast_one] at h3
    exact h3
  rw [hc]
  omega

/-- simulate_system: header lines, then the fixed-step loop from t = 0. -/
def simulate_system {σ : Type} (sleeper : ℚ → σ → σ) (pump : Pump) (pipe : Pipe) (tank : Tank)
    (simulation_duration time_step : ℚ) (s : σ) : LoopResult σ :=
  let r := simulate_loop sleeper pump pipe tank simulation_duration time_step 0 s
  { r with lines := Line.header :: Line.separator :: r.lines }

/-- Recognizer for observation lines. -/
def isObservation : Line → Bool
  | Line.observation _ _ _ _ => true
  | _ => false

/-- Recognizer for notice lines. -/
def isNotice : Line → Bool
  | Line.notice _ => true
  | _ => false

/-- Number of observation lines in an output stream. -/
def obsCount (lines : List Line) : ℕ := (lines.filter isObservation).length

/-- Number of notice lines in an output stream. -/
def noticeCount (lines : List Line) : ℕ := (lines.filter isNotice).length

/-- The pump compiled into main: Q = 0.01 m³/s, H = 10 m, P = 0. -/
def s1Pump : Pump := ⟨1 / 100, 10, 0⟩

/-- The pipe compiled into main: L = 50 m, D = 0.1 m, roughness 0.015,
v = 0, ρ = 1000 kg/m³. -/
def s1Pipe : Pipe := ⟨50, 1 / 10, 3 / 200, 0, 1000⟩

/-- The tank compiled into main: H_t = 5 m, r = 1 m, h₀ = 0. -/
def s1Tank : Tank := ⟨5, 1, 0⟩

/-- The loop of the compiled-in scenario, entered at tick number k with an
effect-free sleeper: pump power p and pipe velocity v are the values left
by the previous tick (0 before the first), the water level is the closed
form k/(100·π), and the simulated time is k seconds. -/
def s1LoopFrom (k : ℕ) (p v : ℚ) : LoopResult Unit :=
  simulate_loop (fun _ s => s) ⟨1 / 100, 10, p⟩ ⟨50, 1 / 10, 3 / 200, v, 1000⟩
    ⟨5, 1, (k : ℚ) / (100 * M_PI)⟩ 60 1 (k : ℚ) ()

/-- Mirrors the control path of calculate_head_loss up to the branch of
calculate_friction_factor: returns the Reynolds number that reaches the
laminar division 64/Re when that branch is taken, and none when the
turbulent branch is taken.  Used to exhibit the divisor the source hands
to the division 64.0 / reynolds_number. -/
def head_loss_laminar_divisor (pipe : Pipe) (flow_rate : ℚ) : Option ℚ :=
  let area := M_PI * ((pipe.diameter / 2) * (pipe.diameter / 2))
  let velocity := flow_rate / area
  let reynolds_number := (pipe.density * velocity * pipe.diameter) / (1 / 1000)
  if reynolds_number < 2000 then
    some reynolds_number
  else
    none

theorem M_PI_pos : (0 : ℚ) < M_PI := by norm_num [M_PI]

/-- Claim C4: calculate_friction_factor returns exactly 64/Re for Re < 2000
(laminar branch) and exactly the constant 0.02 for Re ≥ 2000 (turbulent
branch). -/
theorem friction_factor_cases (re : ℚ) :
    (re < 2000 → calculate_friction_factor re = 64 / re) ∧
    (2000 ≤ re → calculate_friction_factor re = 2 / 100) := by
  constructor
  · intro h
    simp [calculate_friction_factor, h]
  · intro h
    simp [calculate_friction_factor, not_lt.mpr h]

/-- Witness for C4: the laminar branch at Re = 1000 gives 64/1000 = 0.064
and the turbulent branch at Re = 127324 gives 0.02. -/
theorem friction_factor_cases_witness :
    calculate_friction_factor 1000 = 64 / 1000 ∧ calculate_friction_factor 127324 = 2 / 100 :=
  ⟨(friction_factor_cases 1000).1 (by norm_num), (friction_factor_cases 127324).2 (by norm_num)⟩

/-- Claim C5: calculate_head_loss computes v = Q/(π·(D/2)²), Re = ρ·v·D/10⁻³,
f = calculate_friction_factor Re, and returns f·(L/D)·v²/(2·g); its value
depends only on (L, D, ρ, Q) — in particular not on pipe.roughness — and
its only mutation is writing v into pipe.velocity. -/
theorem head_loss_spec (pipe : Pipe) (Q : ℚ) :
    (calculate_head_loss pipe Q).2
      = calculate_friction_factor
          (pipe.density * (Q / (M_PI * ((pipe.diameter / 2) * (pipe.diameter / 2))))
            * pipe.diameter / (1 / 1000))
        * (pipe.length / pipe.diameter)
        * ((Q / (M_PI * ((pipe.diameter / 2) * (pipe.diameter / 2))))
            * (Q / (M_PI * ((pipe.diameter / 2) * (pipe.diameter / 2)))))
        / (2 * GRAVITY) ∧
    (calculate_head_loss pipe Q).1
      = { pipe with velocity := Q / (M_PI * ((pipe.diameter / 2) * (pipe.diameter / 2))) } ∧
    (∀ eps : ℚ, (calculate_head_loss { pipe with roughness := eps } Q).2
      = (calculate_head_loss pipe Q).2) := by
  refine ⟨rfl, rfl, fun eps => rfl⟩

/-- Claim C6: calculate_pump_power returns exactly ρ·g·Q·H with g = 9.81,
reading only pipe.density, pump.flow_rate and pump.head (so it is
independent of the head-loss check) and mutating nothing (it is a pure
function of its arguments in this model, as in the source). -/
theorem pump_power_spec (pump : Pump) (pipe : Pipe) :
    calculate_pump_power pump pipe = pipe.density * (981 / 100) * pump.flow_rate * pump.head := rfl

/-- Claim C7 (evidence of the code bug): at zero flow rate the laminar
branch of calculate_friction_factor is reached with Reynolds number 0, so
the source evaluates the division 64.0 / 0.0 — there is no v = 0 guard in
calculate_head_loss.  Shown on the pipe compiled into main. -/
theorem head_loss_zero_flow_divides_by_zero :
    head_loss_laminar_divisor s1Pipe 0 = some 0 := by
  norm_num [head_loss_laminar_divisor, s1Pipe, M_PI]

/-- Claim C1: one step preserves 0 ≤ h ≤ H_t, given 0 ≤ h₀ ≤ H_t, a
non-negative pump flow rate and a positive time step (the clamp in the
integrator keeps the level within the tank height). -/
theorem update_tank_level_bounds (tank : Tank) (pump : Pump) (pipe : Pipe) (dt : ℚ)
    (h0 : 0 ≤ tank.water_level) (h1 : tank.water_level ≤ tank.height)
    (hQ : 0 ≤ pump.flow_rate) (hdt : 0 < dt) :
    0 ≤ (update_tank tank pump pipe dt).tank.water_level ∧
      (update_tank tank pump pipe dt).tank.water_level ≤ tank.height := by
  have hA : 0 ≤ M_PI * (tank.radius * tank.radius) :=
    mul_nonneg (le_of_lt M_PI_pos) (mul_self_nonneg _)
  have hinc : 0 ≤ (pump.flow_rate / (M_PI * (tank.radius * tank.radius))) * dt :=
    mul_nonneg (div_nonneg hQ hA) (le_of_lt hdt)
  simp only [update_tank]
  split
  · exact ⟨h0, h1⟩
  · split
    · exact ⟨le_trans h0 h1, le_refl _⟩
    · next hcl =>
      refine ⟨?_, ?_⟩
      · dsimp only
        linarith
      · dsimp only
        exact not_lt.mp hcl

/-- Witness for C1 at the records compiled into main with Δt = 1. -/
theorem update_tank_level_bounds_witness :
    0 ≤ (update_tank s1Tank s1Pump s1Pipe 1).tank.water_level ∧
      (update_tank s1Tank s1Pump s1Pipe 1).tank.water_level ≤ s1Tank.height :=
  update_tank_level_bounds s1Tank s1Pump s1Pipe 1 (by norm_num [s1Tank]) (by norm_num [s1Tank])
    (by norm_num [s1Pump]) (by norm_num)

/-- Claim C2: on a tick where the pump head is at least the head loss and
the clamp does not trigger, the water level rises by exactly
(Q / (π·r²))·Δt — the effective inflow is the full pump.Q. -/
theorem update_tank_flow_exact (tank : Tank) (pump : Pump) (pipe : Pipe) (dt : ℚ)
    (hf : (calculate_head_loss pipe pump.flow_rate).2 ≤ pump.head)
    (hcl : tank.water_level + (pump.flow_rate / (M_PI * (tank.radius * tank.radius))) * dt
      ≤ tank.height) :
    (update_tank tank pump pipe dt).tank.water_level
      = tank.water_level + (pump.flow_rate / (M_PI * (tank.radius * tank.radius))) * dt := by
  simp only [update_tank]
  rw [if_neg (not_lt.mpr hf), if_neg (not_lt.mpr hcl)]

/-- Witness for C2 at the records compiled into main with Δt = 1. -/
theorem update_tank_flow_exact_witness :
    (update_tank s1Tank s1Pump s1Pipe 1).tank.water_level
      = s1Tank.water_level
        + (s1Pump.flow_rate / (M_PI * (s1Tank.radius * s1Tank.radius))) * 1 :=
  update_tank_flow_exact s1Tank s1Pump s1Pipe 1
    (by norm_num [calculate_head_loss, calculate_friction_factor, s1Pipe, s1Pump, M_PI, GRAVITY])
    (by norm_num [s1Tank, s1Pump, M_PI])

/-- Claim C3: on a tick where the pump head is below the head loss, the
step emits exactly the no-flow notice and leaves the tank and the pump
(water level and power included) exactly as they were; only pipe.velocity
is rewritten, to Q/(π·(D/2)²). -/
theorem update_tank_noflow_frame (tank : Tank) (pump : Pump) (pipe : Pipe) (dt : ℚ)
    (h : pump.head < (calculate_head_loss pipe pump.flow_rate).2) :
    (update_tank tank pump pipe dt).tank = tank ∧
    (update_tank tank pump pipe dt).pump = pump ∧
    (update_tank tank pump pipe dt).pipe
      = { pipe with
            velocity := pump.flow_rate / (M_PI * ((pipe.diameter / 2) * (pipe.diameter / 2))) } ∧
    (update_tank tank pump pipe dt).notices = [Notice.noFlow] := by
  simp only [update_tank]
  rw [if_pos h]
  exact ⟨rfl, rfl, rfl, rfl⟩

/-- Witness for C3: the undersized pump of scenario S3 (H = 0.01 m) with
the pipe and tank compiled into main cannot overcome the ≈ 0.826 m head
loss, so the step is a frame-preserving no-op apart from pipe.velocity. -/
theorem update_tank_noflow_frame_witness :
    (update_tank s1Tank ⟨1 / 100, 1 / 100, 0⟩ s1Pipe 1).tank = s1Tank ∧
    (update_tank s1Tank ⟨1 / 100, 1 / 100, 0⟩ s1Pipe 1).pump = ⟨1 / 100, 1 / 100, 0⟩ ∧
    (update_tank s1Tank ⟨1 / 100, 1 / 100, 0⟩ s1Pipe 1).pipe
      = { s1Pipe with
            velocity := (1 / 100 : ℚ)
              / (M_PI * ((s1Pipe.diameter / 2) * (s1Pipe.diameter / 2))) } ∧
    (update_tank s1Tank ⟨1 / 100, 1 / 100, 0⟩ s1Pipe 1).notices = [Notice.noFlow] :=
  update_tank_noflow_frame s1Tank ⟨1 / 100, 1 / 100, 0⟩ s1Pipe 1
    (by norm_num [calculate_head_loss, calculate_friction_factor, s1Pipe, M_PI, GRAVITY])

theorem filter_isObservation_map_notice (ns : List Notice) :
    (ns.map Line.notice).filter isObservation = [] := by
  induction ns with
  | nil => rfl
  | cons a l ih => simp [isObservation, ih]

theorem obsCount_tick (ns : List Notice) (t h q p : ℚ) (rest : List Line) :
    obsCount ((ns.map Line.notice) ++ Line.observation t h q p :: rest)
      = obsCount rest + 1 := by
  simp [obsCount, List.filter_append, filter_isObservation_map_notice, isObservation,
    List.filter_cons]

theorem ceil_tick_lt {d dt t : ℚ} (hc : t < d) (hdt : 0 < dt) :
    Int.ceil ((d - (t + dt)) / dt) = Int.ceil ((d - t) / dt) - 1 ∧
      0 < Int.ceil ((d - t) / dt) := by
  constructor
  · have e : (d - (t + dt)) / dt = (d - t) / dt - 1 := by
      field_simp
      ring
    rw [e]
    have h3 := Int.ceil_sub_int ((d - t) / dt) 1
    simp only [Int.cast_one] at h3
    exact h3
  · rw [Int.ceil_pos]
    exact div_pos (sub_pos.mpr hc) hdt

theorem simulate_loop_obs_count {σ : Type} (sleeper : ℚ → σ → σ) (d dt : ℚ) (hdt : 0 < dt) :
    ∀ (n : ℕ) (pu : Pump) (pp : Pipe) (ta : Tank) (t : ℚ) (s : σ),
      (Int.ceil ((d - t) / dt)).toNat = n →
      obsCount (simulate_loop sleeper pu pp ta d dt t s).lines = n := by
  intro n
  induction n using Nat.strong_induction_on with
  | _ n ih =>
    intro pu pp ta t s hn
    by_cases hc : t < d
    · obtain ⟨hstep, hpos⟩ := ceil_tick_lt hc hdt
      unfold simulate_loop
      rw [dif_pos ⟨hc, hdt⟩]
      dsimp only
      rw [obsCount_tick]
      have hrec := ih (n - 1) (by omega) (update_tank ta pu pp dt).pump
        (update_tank ta pu pp dt).pipe (update_tank ta pu pp dt).tank (t + dt)
        (sleeper dt s) (by rw [hstep]; omega)
      omega
    · unfold simulate_loop
      rw [dif_neg (by tauto)]
      have hle : (d - t) / dt ≤ 0 :=
        div_nonpos_iff.mpr (Or.inr ⟨sub_nonpos.mpr (not_lt.mp hc), le_of_lt hdt⟩)
      have hcl : Int.ceil ((d - t) / dt) ≤ 0 := Int.ceil_le.mpr (by simpa using hle)
      simp only [obsCount, List.filter_nil, List.length_nil]
      omega

/-- Claim C8: for a duration that is a positive multiple n·Δt of the time
step (Δt > 0), the run emits exactly ⌈duration/Δt⌉ observation lines, one
per loop iteration, and that count equals n. -/
theorem run_emits_ceil_lines {σ : Type} (sleeper : ℚ → σ → σ) (s : σ)
    (pump : Pump) (pipe : Pipe) (tank : Tank) (n : ℕ) (dt : ℚ)
    (hn : 0 < n) (hdt : 0 < dt) :
    obsCount (simulate_system sleeper pump pipe tank ((n : ℚ) * dt) dt s).lines
        = (Int.ceil (((n : ℚ) * dt) / dt)).toNat ∧
      (Int.ceil (((n : ℚ) * dt) / dt)).toNat = n := by
  have hd : ((n : ℚ) * dt) / dt = (n : ℚ) := mul_div_cancel_right₀ _ (ne_of_gt hdt)
  have hceil : (Int.ceil (((n : ℚ) * dt) / dt)).toNat = n := by
    rw [hd]
    rw [Int.ceil_natCast]
    exact Int.toNat_natCast n
  refine ⟨?_, hceil⟩
  rw [hceil]
  have hcount := simulate_loop_obs_count sleeper ((n : ℚ) * dt) dt hdt n pump pipe tank 0 s
    (by rw [sub_zero, hd, Int.ceil_natCast]; exact Int.toNat_natCast n)
  simp only [simulate_system]
  simpa [obsCount, List.filter_cons, isObservation] using hcount

/-- Witness for C8: with the records compiled into main, duration 3·1 and
Δt = 1, the loop emits exactly ⌈3/1⌉ = 3 observation lines. -/
theorem run_emits_ceil_lines_witness :
    obsCount (simulate_system (fun _ (s : Unit) => s) s1Pump s1Pipe s1Tank
          (((3 : ℕ) : ℚ) * 1) 1 ()).lines
        = (Int.ceil ((((3 : ℕ) : ℚ) * 1) / 1)).toNat ∧
      (Int.ceil ((((3 : ℕ) : ℚ) * 1) / 1)).toNat = 3 :=
  run_emits_ceil_lines (fun _ (s : Unit) => s) () s1Pump s1Pipe s1Tank 3 1
    (by norm_num) (by norm_num)

theorem simulate_loop_lines_sleeper_free {σ₁ σ₂ : Type} (sl₁ : ℚ → σ₁ → σ₁)
    (sl₂ : ℚ → σ₂ → σ₂) (d dt : ℚ) :
    ∀ (n : ℕ) (pu : Pump) (pp : Pipe) (ta : Tank) (t : ℚ) (s₁ : σ₁) (s₂ : σ₂),
      (Int.ceil ((d - t) / dt)).toNat = n →
      (simulate_loop sl₁ pu pp ta d dt t s₁).lines
        = (simulate_loop sl₂ pu pp ta d dt t s₂).lines := by
  intro n
  induction n using Nat.strong_induction_on with
  | _ n ih =>
    intro pu pp ta t s₁ s₂ hn
    by_cases hc : t < d ∧ 0 < dt
    · obtain ⟨hstep, hpos⟩ := ceil_tick_lt hc.1 hc.2
      unfold simulate_loop
      rw [dif_pos hc, dif_pos hc]
      dsimp only
      rw [ih (n - 1) (by omega) (update_tank ta pu pp dt).pump (update_tank ta pu pp dt).pipe
        (update_tank ta pu pp dt).tank (t + dt) (sl₁ dt s₁) (sl₂ dt s₂) (by rw [hstep]; omega)]
    · unfold simulate_loop
      rw [dif_neg hc, dif_neg hc]

/-- Claim C10: the output stream of a run is a deterministic function of
the pump, pipe, tank, duration and time step alone — for any two sleeper
capabilities (in particular effect-free ones) and any two sleeper states,
identical parameters give identical line streams. -/
theorem run_deterministic {σ₁ σ₂ : Type} (sl₁ : ℚ → σ₁ → σ₁) (sl₂ : ℚ → σ₂ → σ₂)
    (s₁ : σ₁) (s₂ : σ₂) (pump : Pump) (pipe : Pipe) (tank : Tank) (d dt : ℚ) :
    (simulate_system sl₁ pump pipe tank d dt s₁).lines
      = (simulate_system sl₂ pump pipe tank d dt s₂).lines := by
  simp only [simulate_system]
  rw [simulate_loop_lines_sleeper_free sl₁ sl₂ d dt (Int.ceil ((d - 0) / dt)).toNat
    pump pipe tank 0 s₁ s₂ rfl]

theorem s1_head_loss (v : ℚ) :
    calculate_head_loss ⟨50, 1 / 10, 3 / 200, v, 1000⟩ (1 / 100)
      = (⟨50, 1 / 10, 3 / 200, 4 / M_PI, 1000⟩, 8000 / (981 * (M_PI * M_PI))) := by
  simp only [calculate_head_loss, calculate_friction_factor, GRAVITY, Prod.mk.injEq,
    Pipe.mk.injEq]
  norm_num [M_PI]

theorem s1_step (lvl p v : ℚ) (hlvl : lvl + 1 / (100 * M_PI) ≤ 5) :
    update_tank ⟨5, 1, lvl⟩ ⟨1 / 100, 10, p⟩ ⟨50, 1 / 10, 3 / 200, v, 1000⟩ 1
      = ⟨⟨5, 1, lvl + 1 / (100 * M_PI)⟩, ⟨1 / 100, 10, 981⟩,
          ⟨50, 1 / 10, 3 / 200, 4 / M_PI, 1000⟩, []⟩ := by
  have hpi : (M_PI : ℚ) ≠ 0 := ne_of_gt M_PI_pos
  have hinc : ((1 : ℚ) / 100) / (M_PI * ((1 : ℚ) * 1)) * 1 = 1 / (100 * M_PI) := by
    field_simp
  simp only [update_tank, s1_head_loss]
  rw [if_neg (by norm_num [M_PI])]
  simp only [calculate_pump_power, GRAVITY]
  rw [hinc, if_neg (not_lt.mpr hlvl)]
  norm_num

theorem s1_loop (m : ℕ) : ∀ (k : ℕ), k + m = 60 → ∀ (p v : ℚ),
    noticeCount (s1LoopFrom k p v).lines = 0 ∧
      (s1LoopFrom k p v).tank.water_level = 60 / (100 * M_PI) := by
  induction m with
  | zero =>
    intro k hk p v
    have hk60 : k = 60 := by omega
    subst hk60
    unfold s1LoopFrom simulate_loop
    rw [dif_neg (by norm_num)]
    exact ⟨rfl, by norm_num⟩
  | succ m ih =>
    intro k hk p v
    have hklt : (k : ℚ) < 60 := by
      have : k < 60 := by omega
      exact_mod_cast this
    have hbound : (k : ℚ) / (100 * M_PI) + 1 / (100 * M_PI) ≤ 5 := by
      rw [div_add_div_same]
      rw [div_le_iff₀ (by norm_num [M_PI] : (0 : ℚ) < 100 * M_PI)]
      have h60 : (k : ℚ) + 1 ≤ 60 := by
        have : k + 1 ≤ 60 := by omega
        exact_mod_cast this
      have hm : (60 : ℚ) ≤ 5 * (100 * M_PI) := by norm_num [M_PI]
      linarith
    have hlv : (k : ℚ) / (100 * M_PI) + 1 / (100 * M_PI) = ((k + 1 : ℕ) : ℚ) / (100 * M_PI) := by
      rw [div_add_div_same]
      push_cast
      ring_nf
    have ht : (k : ℚ) + 1 = ((k + 1 : ℕ) : ℚ) := by push_cast; ring
    have hrec := ih (k + 1) (by omega) 981 (4 / M_PI)
    unfold s1LoopFrom at hrec ⊢
    unfold simulate_loop
    rw [dif_pos ⟨hklt, by norm_num⟩]
    dsimp only
    rw [s1_step ((k : ℚ) / (100 * M_PI)) p v hbound]
    dsimp only
    rw [hlv, ht]
    simp only [List.map_nil, List.nil_append]
    refine ⟨?_, hrec.2⟩
    simp only [noticeCount, List.filter_cons, isNotice]
    simpa [noticeCount] using hrec.1

/-- Claim C9: in the compiled-in scenario (Q = 0.01, H = 10, L = 50,
D = 0.1, ρ = 1000, r = 1, H_t = 5, h₀ = 0, Δt = 1 s, duration = 60 s):
after one second of simulated time the tank level is within 10⁻⁶ of
0.003183 m and the pump power is exactly 981 W; the 60 s run emits no
notice lines; and the final level is within 5·10⁻⁵ of 0.1910 m, strictly
below the 5 m tank height (no overflow). -/
theorem s1_scenario :
    |(update_tank s1Tank s1Pump s1Pipe 1).tank.water_level - 3183 / 1000000| < 1 / 1000000 ∧
    (update_tank s1Tank s1Pump s1Pipe 1).pump.power = 981 ∧
    noticeCount (simulate_system (fun _ (s : Unit) => s) s1Pump s1Pipe s1Tank 60 1 ()).lines
      = 0 ∧
    |(simulate_system (fun _ (s : Unit) => s) s1Pump s1Pipe s1Tank 60 1 ()).tank.water_level
      - 1910 / 10000| < 5 / 100000 ∧
    (simulate_system (fun _ (s : Unit) => s) s1Pump s1Pipe s1Tank 60 1 ()).tank.water_level
      < 5 := by
  have hstep1 : update_tank s1Tank s1Pump s1Pipe 1
      = ⟨⟨5, 1, 0 + 1 / (100 * M_PI)⟩, ⟨1 / 100, 10, 981⟩,
          ⟨50, 1 / 10, 3 / 200, 4 / M_PI, 1000⟩, []⟩ := by
    have := s1_step 0 0 0 (by norm_num [M_PI])
    simpa [s1Tank, s1Pump, s1Pipe] using this
  have hAt : s1LoopFrom 0 0 0
      = simulate_loop (fun _ (s : Unit) => s) s1Pump s1Pipe s1Tank 60 1 0 () := by
    unfold s1LoopFrom
    norm_num [s1Pump, s1Pipe, s1Tank]
  have hrun := s1_loop 60 0 rfl 0 0
  rw [hAt] at hrun
  refine ⟨?_, ?_, ?_, ?_, ?_⟩
  · rw [hstep1]
    show |0 + 1 / (100 * M_PI) - 3183 / 1000000| < 1 / 1000000
    rw [abs_lt]
    constructor <;> norm_num [M_PI]
  · rw [hstep1]
  · simp only [simulate_system, noticeCount, List.filter_cons, isNotice]
    simpa [noticeCount] using hrun.1
  · simp only [simulate_system]
    rw [hrun.2, abs_lt]
    constructor <;> norm_num [M_PI]
  · simp only [simulate_system]
    rw [hrun.2]
    norm_num [M_PI]

end Asim
